import Mathlib

/-!
Verification of the Wordpress-SEO-Automated backend against its
natural-language specification.

The development shallow-embeds the two route files of the repository:
`src/server/routes.ts` (the iterative AI-fix endpoint
`POST /api/user/websites/:id/iterative-ai-fix`) and the Google Search
Console route file (`POST /index`, `GET /performance`).  Route handlers
become pure functions from the request data plus the outcomes of their
external calls (database, Google APIs, the AI fix service) to a response
record; the externally observable effects that the claims mention
(quota increments, whether the external service was called at all) are
recorded explicitly in the response record or expressed as independence
from the corresponding oracle.

JavaScript numbers are modelled as rationals (`ℚ`); none of the claims
depends on floating-point rounding.  JavaScript `parseInt`,
`Math.round`, `String.prototype.includes` and division are given
explicit models (`parseIntJs`, `jsRound`, `jsIncludes`, `jsDiv`).

The AI fix service (`aiFixService.iterativelyFixUntilAcceptable`) is
not part of the repository snapshot; its loop is modelled from the
specification, as marked in the doc comments below.
-/

namespace SeoAuto

/-! ## Data model of the Remediation Controller (spec §3) -/

/-- Modelled from the spec: the repository snapshot does not contain
`server/services/ai-fix-service.ts`; this is the spec §3 `IterationRecord`
{ iterationNumber ≥ 1, scoreBefore, scoreAfter, improvement = scoreAfter −
scoreBefore, fixesAttempted, fixesSuccessful }.  The wall-clock fields
(`analysisTimeSeconds`, `fixTimeSeconds`, `timestamp`) are environment
observables that no control-flow decision reads and are omitted. -/
structure IterationRecord where
  iterationNumber : ℕ
  scoreBefore : ℚ
  scoreAfter : ℚ
  improvement : ℚ
  fixesAttempted : ℕ
  fixesSuccessful : ℕ
  deriving Repr, DecidableEq

/-- Modelled from the spec: `stoppedReason ∈ {target_reached,
max_iterations, no_improvement, error}` (spec §3, RemediationResult). -/
inductive StoppedReason where
  | target_reached
  | max_iterations
  | no_improvement
  | error
  deriving Repr, DecidableEq

/-- Modelled from the spec: the spec §3 `RemediationResult`.  The
`fixesApplied` and `detailedLog` sequences are omitted: no claim and no
stop decision reads them. -/
structure RemediationResult where
  initialScore : ℚ
  finalScore : ℚ
  scoreImprovement : ℚ
  targetScore : ℚ
  iterationsCompleted : ℕ
  stoppedReason : StoppedReason
  iterations : List IterationRecord
  errors : List String
  deriving Repr, DecidableEq

/-- Modelled from the spec: the Controller config (spec §4.1 Contract):
targetScore (valid range [50,100]), maxIterations (valid range [1,10]),
minImprovementThreshold, maxChangesPerIteration.  `fixTypes` and
`skipBackup` only restrict which fixes the external Fix Applier attempts
and are carried by the oracle, not by the loop. -/
structure RemediationConfig where
  targetScore : ℚ
  maxIterations : ℕ
  minImprovementThreshold : ℚ
  maxChangesPerIteration : ℕ
  deriving Repr, DecidableEq

/-- Modelled from the spec: one Fix Applier batch outcome — how many
fixes were attempted and how many succeeded in one iteration
(spec §6, `FixApplier.apply` returning per-issue outcomes). -/
structure FixBatch where
  attempted : ℕ
  successful : ℕ
  deriving Repr, DecidableEq

/-- Modelled from the spec: "Score is clamped to [0,100] at every read
from the Analyzer regardless of what the Analyzer returns" (spec §4.1). -/
def clampScore (q : ℚ) : ℚ := min 100 (max 0 q)

/-- Result assembly shared by every exit of the remediation loop:
`iterationsCompleted` is the length of `iterations`, `finalScore` is the
current score, `scoreImprovement = finalScore − initialScore`. -/
def mkResult (initial current : ℚ) (cfg : RemediationConfig)
    (done : List IterationRecord) (errs : List String)
    (reason : StoppedReason) : RemediationResult :=
  { initialScore := initial
    finalScore := current
    scoreImprovement := current - initial
    targetScore := cfg.targetScore
    iterationsCompleted := done.length
    stoppedReason := reason
    iterations := done
    errors := errs }

/-- Modelled from the spec: the `IterationRecord` appended by one loop
pass (spec §4.1 steps 2a–2e): `scoreBefore` is the current score,
`scoreAfter` the clamped re-analysis result, `improvement` their
difference. -/
def iterationStep (current : ℚ) (doneLen : ℕ) (batch : FixBatch)
    (raw : ℚ) : IterationRecord :=
  { iterationNumber := doneLen + 1
    scoreBefore := current
    scoreAfter := clampScore raw
    improvement := clampScore raw - current
    fixesAttempted := batch.attempted
    fixesSuccessful := batch.successful }

/-- Modelled from the spec: the body of the remediation loop
(spec §4.1 Algorithm step 2, with the exits of steps 2f, 2g, 3 and 4).
`fuel` is the number of iterations still allowed; the Analyzer oracle is
indexed by call number (call 0 produced the initial score, iteration k
re-analyzes with call k), the Fix Applier oracle by iteration index
(0-based).  An `Except.error` from either oracle aborts immediately with
`stoppedReason = error`, keeping the iterations completed so far
(spec §4.1 step 4). -/
def remediationGo (cfg : RemediationConfig) (analyzer : ℕ → Except String ℚ)
    (fixer : ℕ → Except String FixBatch) (initial : ℚ) :
    ℕ → ℚ → List IterationRecord → List String → RemediationResult
  | 0, current, done, errs =>
    if cfg.targetScore ≤ current then
      mkResult initial current cfg done errs .target_reached
    else
      mkResult initial current cfg done errs .max_iterations
  | fuel' + 1, current, done, errs =>
    if cfg.targetScore ≤ current then
      mkResult initial current cfg done errs .target_reached
    else
      match fixer done.length with
      | .error e => mkResult initial current cfg done (errs ++ [e]) .error
      | .ok batch =>
        match analyzer (done.length + 1) with
        | .error e => mkResult initial current cfg done (errs ++ [e]) .error
        | .ok raw =>
          if cfg.targetScore ≤ clampScore raw then
            mkResult initial (clampScore raw) cfg
              (done ++ [iterationStep current done.length batch raw]) errs .target_reached
          else if clampScore raw - current < cfg.minImprovementThreshold then
            mkResult initial (clampScore raw) cfg
              (done ++ [iterationStep current done.length batch raw]) errs .no_improvement
          else
            remediationGo cfg analyzer fixer initial fuel' (clampScore raw)
              (done ++ [iterationStep current done.length batch raw]) errs

/-- Modelled from the spec: one full run of the Remediation Controller
(spec §4.1 Algorithm): obtain the initial score from Analyzer call 0
(clamped), then loop up to `cfg.maxIterations` times.  A failure of the
initial analysis aborts with `stoppedReason = error` and no iterations. -/
def remediationRun (cfg : RemediationConfig) (analyzer : ℕ → Except String ℚ)
    (fixer : ℕ → Except String FixBatch) : RemediationResult :=
  match analyzer 0 with
  | .error e =>
      { initialScore := 0, finalScore := 0, scoreImprovement := 0
        targetScore := cfg.targetScore, iterationsCompleted := 0
        stoppedReason := .error, iterations := [], errors := [e] }
  | .ok raw =>
      let s := clampScore raw
      remediationGo cfg analyzer fixer s cfg.maxIterations s [] []

/-- Modelled from the spec: "`targetScore`/`maxIterations` outside their
valid ranges are rejected before any analysis runs (`InvalidConfigError`)"
(spec §4.1 / §7). -/
def validRemediationConfig (cfg : RemediationConfig) : Bool :=
  (50 ≤ cfg.targetScore && cfg.targetScore ≤ 100) &&
    (1 ≤ cfg.maxIterations && cfg.maxIterations ≤ 10)

/-- Modelled from the spec: the Controller entry point
`aiFixService.iterativelyFixUntilAcceptable` (absent from the snapshot;
spec §4.1): config validation and the prior-analysis precondition are
checked before any Analyzer or Fix Applier call; the error message of
the missing-analysis failure is the one `routes.ts` line 1768 matches on
(`No SEO analysis found`). -/
def iterativelyFixUntilAcceptable (hasPriorAnalysis : Bool)
    (cfg : RemediationConfig) (analyzer : ℕ → Except String ℚ)
    (fixer : ℕ → Except String FixBatch) : Except String RemediationResult :=
  if !validRemediationConfig cfg then
    .error "Invalid remediation configuration"
  else if !hasPriorAnalysis then
    .error "No SEO analysis found for this website"
  else
    .ok (remediationRun cfg analyzer fixer)

/-! ## JavaScript primitive models -/

/-- JavaScript `String.prototype.includes`: `pat` occurs contiguously in
`s`. -/
def jsIncludes (s pat : String) : Bool := decide (pat.data <:+: s.data)

/-- JavaScript division, where dividing by zero does not produce a
rational (it yields `Infinity`/`NaN`): modelled as `none`. -/
def jsDiv (a b : ℚ) : Option ℚ := if b = 0 then none else some (a / b)

/-- JavaScript `Math.round`: round half toward positive infinity. -/
def jsRound (q : ℚ) : ℤ := ⌊q + 1 / 2⌋

/-- The ASCII whitespace characters JavaScript `parseInt` skips (the
non-ASCII space code points never occur in the inputs of the claims). -/
def jsWhitespaceChar (c : Char) : Bool :=
  c = ' ' || c = '\t' || c = '\n' || c = '\r' || c.toNat = 11 || c.toNat = 12

/-- Value of a digit character in the given base, `none` if the
character is not a digit of that base. -/
def digitValue (base : ℕ) (c : Char) : Option ℕ :=
  let v : ℕ :=
    if '0' ≤ c ∧ c ≤ '9' then c.toNat - '0'.toNat
    else if 'a' ≤ c ∧ c ≤ 'z' then c.toNat - 'a'.toNat + 10
    else if 'A' ≤ c ∧ c ≤ 'Z' then c.toNat - 'A'.toNat + 10
    else base
  if v < base then some v else none

/-- JavaScript `parseInt(s)` with no radix argument: skip leading
whitespace, optional sign, `0x`/`0X` switches to base 16, then the
longest run of digits of the base; `NaN` (here `none`) if that run is
empty. -/
def parseIntJs (s : String) : Option ℤ :=
  let cs := s.data.dropWhile jsWhitespaceChar
  let signed : ℤ × List Char :=
    match cs with
    | '-' :: rest => (-1, rest)
    | '+' :: rest => (1, rest)
    | _ => (1, cs)
  let based : ℕ × List Char :=
    match signed.2 with
    | '0' :: 'x' :: rest => (16, rest)
    | '0' :: 'X' :: rest => (16, rest)
    | _ => (10, signed.2)
  match based.2.takeWhile (fun c => (digitValue based.1 c).isSome) with
  | [] => none
  | d :: ds =>
      some (signed.1 *
        ((d :: ds).foldl (fun acc c => acc * based.1 + (digitValue based.1 c).getD 0) 0 : ℕ))

/-! ## The iterative AI-fix endpoint (`src/server/routes.ts` 1645–1786)

The handler becomes a function of the request body, whether the
ownership lookup found the website, and the AI fix service as an oracle
from the config actually passed to it; the response record also stores
`calledWith`, the config the service was invoked with (`none` when the
handler returned before invoking it). -/

/-- Request body fields of `POST /api/user/websites/:id/iterative-ai-fix`:
each config field is optional (`routes.ts` 1649–1656). -/
structure IterBody where
  targetScore : Option ℚ
  maxIterations : Option ℚ
  minImprovementThreshold : Option ℚ
  fixTypes : Option (List String)
  maxChangesPerIteration : Option ℚ
  skipBackup : Option Bool
  deriving Repr, DecidableEq

/-- The config object the route passes to
`aiFixService.iterativelyFixUntilAcceptable` (`routes.ts` 1688–1695). -/
structure IterConfig where
  targetScore : ℚ
  maxIterations : ℚ
  minImprovementThreshold : ℚ
  fixTypes : Option (List String)
  maxChangesPerIteration : ℚ
  skipBackup : Bool
  deriving Repr, DecidableEq

/-- The response observables of the iterative-fix endpoint that the
claims mention, plus `calledWith` recording the config the service was
invoked with (`none` = the service was never called). -/
structure IterResponse where
  status : ℕ
  message : String := ""
  errorCode : Option String := none
  targetReached : Option Bool := none
  iterationsCompletedField : Option ℕ := none
  stoppedReasonField : Option StoppedReason := none
  calledWith : Option IterConfig := none
  deriving Repr, DecidableEq

/-- The config the route builds for the service call: each field is the
body field with the destructuring default of `routes.ts` 1649–1656
(85, 5, 2, 20, `skipBackup = false`). -/
def builtConfig (body : IterBody) : IterConfig :=
  { targetScore := body.targetScore.getD 85
    maxIterations := body.maxIterations.getD 5
    minImprovementThreshold := body.minImprovementThreshold.getD 2
    fixTypes := body.fixTypes
    maxChangesPerIteration := body.maxChangesPerIteration.getD 20
    skipBackup := body.skipBackup.getD false }

/-- Route `POST /api/user/websites/:id/iterative-ai-fix` (`routes.ts`
1645–1786): apply the destructuring defaults (85, 5, 2, 20, false),
check website ownership (404), validate `targetScore` ∈ [50,100] and
`maxIterations` ∈ [1,10] (400), run the service, and on a thrown error
apply the catch-block mapping of `routes.ts` 1760–1785. -/
def iterativeAiFixHandler (body : IterBody) (websiteFound : Bool)
    (service : IterConfig → Except String RemediationResult) : IterResponse :=
  if !websiteFound then
    { status := 404, message := "Website not found or access denied" }
  else if body.targetScore.getD 85 < 50 ∨ 100 < body.targetScore.getD 85 then
    { status := 400, message := "Target score must be between 50 and 100"
      errorCode := some "INVALID_TARGET_SCORE" }
  else if body.maxIterations.getD 5 < 1 ∨ 10 < body.maxIterations.getD 5 then
    { status := 400, message := "Max iterations must be between 1 and 10"
      errorCode := some "INVALID_MAX_ITERATIONS" }
  else
    let cfg : IterConfig := builtConfig body
    match service cfg with
    | .ok result =>
        { status := 200
          targetReached := some (decide (result.targetScore ≤ result.finalScore))
          iterationsCompletedField := some result.iterationsCompleted
          stoppedReasonField := some result.stoppedReason
          calledWith := some cfg }
    | .error msg =>
        if jsIncludes msg "No SEO analysis found" then
          { status := 400
            message := "Please run SEO analysis first before applying iterative AI fixes"
            calledWith := some cfg }
        else if jsIncludes msg "access denied" then
          { status := 403, message := msg, calledWith := some cfg }
        else if jsIncludes msg "Cannot access website" then
          { status := 400
            message := "Cannot access website for analysis. Please check if the website is online and accessible."
            calledWith := some cfg }
        else
          { status := 500, message := msg, calledWith := some cfg }

/-- Response field `stats.averageImprovementPerIteration` (`routes.ts` 1735–1737):
`result.iterationsCompleted > 0 ? result.scoreImprovement /
result.iterationsCompleted : 0`, with the division modelled by
`jsDiv`. -/
def averageImprovementPerIteration (r : RemediationResult) : Option ℚ :=
  if 0 < r.iterationsCompleted then
    jsDiv r.scoreImprovement (r.iterationsCompleted : ℚ)
  else some 0

/-- Response field `stats.scoreProgressionPercentage` (`routes.ts` 1732–1734):
`result.initialScore > 0 ? Math.round((result.scoreImprovement /
result.initialScore) * 100) : 0`, with the division modelled by
`jsDiv`. -/
def scoreProgressionPercentage (r : RemediationResult) : Option ℤ :=
  if 0 < r.initialScore then
    (jsDiv r.scoreImprovement r.initialScore).map (fun q => jsRound (q * 100))
  else some 0

/-! ## The Google Search Console routes (`src/unnamed/part_000`) -/

/-- Quota record returned by `gscStorage.getGscQuotaUsage`. -/
structure GscQuota where
  used : ℕ
  limit : ℕ
  deriving Repr, DecidableEq

/-- Error thrown by the Google Indexing API publish call; the handler
only inspects its `code`. -/
structure IndexApiError where
  code : ℕ
  deriving Repr, DecidableEq

/-- Response observables of `POST /index`, plus whether
`gscStorage.incrementGscQuotaUsage` was executed. -/
structure IndexResponse where
  status : ℕ
  errorMsg : Option String := none
  quotaIncremented : Bool := false
  deriving Repr, DecidableEq

/-- Route `POST /index` (`part_000` 370–440): validate `type`, reject with 429
when `quota.used >= quota.limit`, 401 when the account lookup fails,
then publish; on success increment the quota and answer 200, on an
Indexing-API error answer 429 when its code is 429 and otherwise fall to
the outer catch (500). -/
def indexHandler (ty : String) (quota : GscQuota) (accountFound : Bool)
    (publishOutcome : Except IndexApiError Unit) : IndexResponse :=
  if ty ≠ "URL_UPDATED" ∧ ty ≠ "URL_DELETED" then
    { status := 400, errorMsg := some "Invalid type. Must be URL_UPDATED or URL_DELETED" }
  else if quota.used ≥ quota.limit then
    { status := 429, errorMsg := some "Daily quota exceeded (200 URLs/day)" }
  else if !accountFound then
    { status := 401, errorMsg := some "Account not found or not authenticated" }
  else
    match publishOutcome with
    | .ok _ => { status := 200, quotaIncremented := true }
    | .error e =>
        if e.code = 429 then
          { status := 429, errorMsg := some "Daily quota exceeded (200 URLs/day)" }
        else
          { status := 500, errorMsg := some "Failed to submit URL for indexing" }

/-- Response observables of `GET /performance`. -/
structure PerfResponse where
  status : ℕ
  errorMsg : Option String := none
  deriving Repr, DecidableEq

/-- Route `GET /performance` (`part_000` 575–640): `days` defaults to
the string `28` in the query destructuring; a missing or empty (falsy) `siteUrl` is
rejected with 400; `parseInt` of `days` must be a number in [1,90]
(400 otherwise); a missing account answers 401; then the Search Console
query answers 200 or, on failure, 500. -/
def perfHandler (siteUrl : Option String) (days : Option String)
    (accountFound : Bool) (queryOutcome : Except String Unit) : PerfResponse :=
  match siteUrl with
  | none => { status := 400, errorMsg := some "Site URL is required" }
  | some u =>
    if u = "" then { status := 400, errorMsg := some "Site URL is required" }
    else
      match parseIntJs (days.getD "28") with
      | none => { status := 400, errorMsg := some "Days must be between 1 and 90" }
      | some n =>
        if n < 1 ∨ 90 < n then
          { status := 400, errorMsg := some "Days must be between 1 and 90" }
        else if !accountFound then
          { status := 401, errorMsg := some "Account not found or not authenticated" }
        else
          match queryOutcome with
          | .ok _ => { status := 200 }
          | .error _ => { status := 500, errorMsg := some "Failed to fetch performance data" }

/-- The days guard of `GET /performance` as a predicate: `parseInt` of
the `days` query value (default the string `28`) yields a number in
[1, 90]. -/
def daysInRange (days : Option String) : Bool :=
  match parseIntJs (days.getD "28") with
  | none => false
  | some n => 1 ≤ n && n ≤ 90

/-! ## Invariant predicate and concrete scenario inputs -/

/-- The invariant package every exit of the remediation loop satisfies
(spec §3 invariant and §8 properties): `iterationsCompleted` counts
`iterations`, `finalScore` is the last `scoreAfter` (or the initial
score when no iteration ran), a `target_reached` exit is at or above the
target, and a `no_improvement` exit has a last iteration below the
improvement threshold. -/
def GoodResult (cfg : RemediationConfig) (initial : ℚ)
    (res : RemediationResult) : Prop :=
  res.initialScore = initial ∧
  res.targetScore = cfg.targetScore ∧
  res.iterationsCompleted = res.iterations.length ∧
  (res.iterations = [] → res.finalScore = initial) ∧
  (∀ r, res.iterations.getLast? = some r → res.finalScore = r.scoreAfter) ∧
  (res.stoppedReason = .target_reached → cfg.targetScore ≤ res.finalScore) ∧
  (res.stoppedReason = .no_improvement →
    ∃ r, res.iterations.getLast? = some r ∧
      r.improvement < cfg.minImprovementThreshold)

/-- The documented default configuration: targetScore 85,
maxIterations 5, minImprovementThreshold 2, maxChangesPerIteration 20. -/
def defaultRemediationConfig : RemediationConfig :=
  { targetScore := 85, maxIterations := 5
    minImprovementThreshold := 2, maxChangesPerIteration := 20 }

/-- Analyzer oracle of the spec §8 steady-progress scenario: initial
score 60, each re-analysis 10 points higher. -/
def witAnalyzer : ℕ → Except String ℚ :=
  fun n => if n = 0 then .ok 60 else .ok (60 + 10 * n)

/-- Fix Applier oracle that always reports five attempts, four
successes. -/
def witFixer : ℕ → Except String FixBatch := fun _ => .ok ⟨5, 4⟩

/-- Analyzer oracle of the spec §8 low-yield scenario: initial score 60,
first re-analysis 61 (improvement 1 < threshold 2). -/
def lowYieldAnalyzer : ℕ → Except String ℚ :=
  fun n => if n = 0 then .ok 60 else .ok 61

/-- Analyzer oracle of the spec §8 failure scenario: initial score 60,
re-analysis 70. -/
def scenAnalyzer : ℕ → Except String ℚ :=
  fun n => if n = 0 then .ok 60 else .ok 70

/-- Fix Applier oracle of the spec §8 failure scenario: iteration 1
succeeds, iteration 2 throws. -/
def scenFixer : ℕ → Except String FixBatch :=
  fun n => if n = 0 then .ok ⟨5, 5⟩ else .error "Fix Applier failed"

/-- Analyzer oracle that produces the initial score 60 and fails on
every re-analysis. -/
def failAnalyzer : ℕ → Except String ℚ :=
  fun n => if n = 0 then .ok 60 else .error "Analyzer failed"

/-- Analyzer oracle that always fails, already at the initial
analysis. -/
def errAnalyzer : ℕ → Except String ℚ := fun _ => .error "Analyzer failed"

/-- A service oracle that fails if it is ever consulted; used to show a
response is produced without reaching the service. -/
def svcErr : IterConfig → Except String RemediationResult :=
  fun _ => .error "service reached"

/-- A service oracle returning the completed steady-progress run. -/
def okService : IterConfig → Except String RemediationResult :=
  fun _ => .ok (remediationRun defaultRemediationConfig witAnalyzer witFixer)

/-- A request body supplying `targetScore = 120` and nothing else. -/
def body120 : IterBody := ⟨some 120, none, none, none, none, none⟩

/-- A request body supplying no field at all. -/
def emptyBody : IterBody := ⟨none, none, none, none, none, none⟩

/-! ## Loop invariants -/

/-- Every `mkResult` exit satisfies the invariant package, given the
running facts about `current` and `done` and the side conditions of the
exit reason. -/
theorem goodResult_mkResult {cfg : RemediationConfig} {initial current : ℚ}
    {done : List IterationRecord} {errs : List String} {reason : StoppedReason}
    (h0 : done = [] → current = initial)
    (hlast : ∀ r, done.getLast? = some r → current = r.scoreAfter)
    (htr : reason = .target_reached → cfg.targetScore ≤ current)
    (hni : reason = .no_improvement →
      ∃ r, done.getLast? = some r ∧
        r.improvement < cfg.minImprovementThreshold) :
    GoodResult cfg initial (mkResult initial current cfg done errs reason) :=
  ⟨rfl, rfl, rfl, h0, hlast, htr, hni⟩

/-- Induction on the remaining fuel: every exit of `remediationGo`
satisfies the invariant package, and at most `fuel` records are added to
`done`. -/
theorem remediationGo_spec (cfg : RemediationConfig)
    (analyzer : ℕ → Except String ℚ) (fixer : ℕ → Except String FixBatch)
    (initial : ℚ) (fuel : ℕ) :
    ∀ (current : ℚ) (done : List IterationRecord) (errs : List String),
      (done = [] → current = initial) →
      (∀ r, done.getLast? = some r → current = r.scoreAfter) →
      GoodResult cfg initial
        (remediationGo cfg analyzer fixer initial fuel current done errs) ∧
      (remediationGo cfg analyzer fixer initial fuel current done errs).iterations.length ≤
        done.length + fuel := by
  induction fuel with
  | zero =>
    intro current done errs h0 hlast
    rw [remediationGo]
    split
    · refine ⟨goodResult_mkResult h0 hlast (fun _ => by assumption)
        (fun hh => absurd hh (by decide)), ?_⟩
      simp only [mkResult]
      omega
    · refine ⟨goodResult_mkResult h0 hlast (fun hh => absurd hh (by decide))
        (fun hh => absurd hh (by decide)), ?_⟩
      simp only [mkResult]
      omega
  | succ fuel ih =>
    intro current done errs h0 hlast
    rw [remediationGo]
    split
    · refine ⟨goodResult_mkResult h0 hlast (fun _ => by assumption)
        (fun hh => absurd hh (by decide)), ?_⟩
      simp only [mkResult]
      omega
    · split
      · refine ⟨goodResult_mkResult h0 hlast (fun hh => absurd hh (by decide))
          (fun hh => absurd hh (by decide)), ?_⟩
        simp only [mkResult]
        omega
      · split
        · refine ⟨goodResult_mkResult h0 hlast (fun hh => absurd hh (by decide))
            (fun hh => absurd hh (by decide)), ?_⟩
          simp only [mkResult]
          omega
        · split
          · refine ⟨goodResult_mkResult (by simp) ?_ (fun _ => by assumption)
              (fun hh => absurd hh (by decide)), ?_⟩
            · intro r hr
              rw [List.getLast?_concat] at hr
              cases hr
              rfl
            · simp only [mkResult, List.length_append, List.length_singleton]
              omega
          · split
            · refine ⟨goodResult_mkResult (by simp) ?_
                (fun hh => absurd hh (by decide)) ?_, ?_⟩
              · intro r hr
                rw [List.getLast?_concat] at hr
                cases hr
                rfl
              · intro _
                refine ⟨_, List.getLast?_concat _, ?_⟩
                simpa [iterationStep] using by assumption
              · simp only [mkResult, List.length_append, List.length_singleton]
                omega
            · rename_i batch heqf x raw heqa hnt hlow
              have hstep := ih (clampScore raw)
                (done ++ [iterationStep current done.length batch raw]) errs
                (by simp) ?_
              · refine ⟨hstep.1, le_trans hstep.2 ?_⟩
                simp only [List.length_append, List.length_singleton]
                omega
              · intro r hr
                rw [List.getLast?_concat] at hr
                cases hr
                rfl

/-- Every complete Controller run satisfies the invariant package, with
at most `cfg.maxIterations` iteration records. -/
theorem remediationRun_spec (cfg : RemediationConfig)
    (analyzer : ℕ → Except String ℚ) (fixer : ℕ → Except String FixBatch) :
    GoodResult cfg (remediationRun cfg analyzer fixer).initialScore
      (remediationRun cfg analyzer fixer) ∧
    (remediationRun cfg analyzer fixer).iterations.length ≤ cfg.maxIterations := by
  cases h : analyzer 0 with
  | error e =>
    simp only [remediationRun, h]
    exact ⟨⟨rfl, rfl, rfl, fun _ => rfl, by simp,
      fun hh => by simp at hh, fun hh => by simp at hh⟩, by simp⟩
  | ok raw =>
    simp only [remediationRun, h]
    have hs := remediationGo_spec cfg analyzer fixer (clampScore raw)
      cfg.maxIterations (clampScore raw) [] [] (fun _ => rfl) (by simp)
    refine ⟨?_, by simpa using hs.2⟩
    rw [show (remediationGo cfg analyzer fixer (clampScore raw) cfg.maxIterations
      (clampScore raw) [] []).initialScore = clampScore raw from hs.1.1]
    exact hs.1

/-! ## Claims -/

/-- C1: For every run of the Remediation Controller with a valid config
(a run the Controller accepts, returning `.ok`), the result satisfies
`iterationsCompleted = len(iterations) ≤ maxIterations`; and
`finalScore` equals the `scoreAfter` of the last iteration record when
`iterationsCompleted > 0`, else `finalScore = initialScore`. -/
theorem claim_C1 (hasPriorAnalysis : Bool) (cfg : RemediationConfig)
    (analyzer : ℕ → Except String ℚ) (fixer : ℕ → Except String FixBatch)
    (result : RemediationResult)
    (h : iterativelyFixUntilAcceptable hasPriorAnalysis cfg analyzer fixer =
      .ok result) :
    result.iterationsCompleted = result.iterations.length ∧
    result.iterationsCompleted ≤ cfg.maxIterations ∧
    (0 < result.iterationsCompleted →
      ∃ r, result.iterations.getLast? = some r ∧
        result.finalScore = r.scoreAfter) ∧
    (result.iterationsCompleted = 0 →
      result.finalScore = result.initialScore) := by
  unfold iterativelyFixUntilAcceptable at h
  split_ifs at h
  injection h with h
  subst h
  obtain ⟨⟨hinit, htgt, hcount, hempty, hlast, htr, hni⟩, hlen⟩ :=
    remediationRun_spec cfg analyzer fixer
  refine ⟨hcount, by rw [hcount]; exact hlen, ?_, ?_⟩
  · intro hpos
    have hne : (remediationRun cfg analyzer fixer).iterations ≠ [] := by
      intro he
      rw [hcount, he] at hpos
      simp at hpos
    obtain ⟨r, hr⟩ := Option.isSome_iff_exists.mp (List.getLast?_isSome.mpr hne)
    exact ⟨r, hr, hlast r hr⟩
  · intro h0
    exact hempty (List.length_eq_zero.mp ((hcount.symm.trans h0)))

/-- Witness for C1: the steady-progress scenario run through the
Controller with the default valid config. -/
theorem claim_C1_witness :
    (remediationRun defaultRemediationConfig witAnalyzer witFixer).iterationsCompleted =
      (remediationRun defaultRemediationConfig witAnalyzer witFixer).iterations.length ∧
    (remediationRun defaultRemediationConfig witAnalyzer witFixer).iterationsCompleted ≤
      defaultRemediationConfig.maxIterations ∧
    (0 < (remediationRun defaultRemediationConfig witAnalyzer witFixer).iterationsCompleted →
      ∃ r, (remediationRun defaultRemediationConfig witAnalyzer witFixer).iterations.getLast? =
          some r ∧
        (remediationRun defaultRemediationConfig witAnalyzer witFixer).finalScore =
          r.scoreAfter) ∧
    ((remediationRun defaultRemediationConfig witAnalyzer witFixer).iterationsCompleted = 0 →
      (remediationRun defaultRemediationConfig witAnalyzer witFixer).finalScore =
        (remediationRun defaultRemediationConfig witAnalyzer witFixer).initialScore) :=
  claim_C1 true defaultRemediationConfig witAnalyzer witFixer _ rfl

/-- C2: if a run stopped with `target_reached` then `finalScore ≥
targetScore`; and the `targetReached` response field of the endpoint is
`true` exactly when the result satisfies `finalScore ≥ targetScore`. -/
theorem claim_C2 (cfg : RemediationConfig) (analyzer : ℕ → Except String ℚ)
    (fixer : ℕ → Except String FixBatch) (body : IterBody)
    (service : IterConfig → Except String RemediationResult)
    (r : RemediationResult)
    (h1 : ¬(body.targetScore.getD 85 < 50 ∨ 100 < body.targetScore.getD 85))
    (h2 : ¬(body.maxIterations.getD 5 < 1 ∨ 10 < body.maxIterations.getD 5))
    (hs : service (builtConfig body) = .ok r) :
    ((remediationRun cfg analyzer fixer).stoppedReason = .target_reached →
      (remediationRun cfg analyzer fixer).targetScore ≤
        (remediationRun cfg analyzer fixer).finalScore) ∧
    ((iterativeAiFixHandler body true service).targetReached = some true ↔
      r.targetScore ≤ r.finalScore) := by
  constructor
  · intro htr
    have hg := (remediationRun_spec cfg analyzer fixer).1
    rw [hg.2.1]
    exact hg.2.2.2.2.2.1 htr
  · simp only [iterativeAiFixHandler, Bool.not_true, if_neg h1, if_neg h2, hs]
    simp

/-- Witness for C2: the steady-progress run served to the route with an
empty request body. -/
theorem claim_C2_witness :
    ((remediationRun defaultRemediationConfig witAnalyzer witFixer).stoppedReason =
        .target_reached →
      (remediationRun defaultRemediationConfig witAnalyzer witFixer).targetScore ≤
        (remediationRun defaultRemediationConfig witAnalyzer witFixer).finalScore) ∧
    ((iterativeAiFixHandler emptyBody true okService).targetReached = some true ↔
      (remediationRun defaultRemediationConfig witAnalyzer witFixer).targetScore ≤
        (remediationRun defaultRemediationConfig witAnalyzer witFixer).finalScore) :=
  claim_C2 defaultRemediationConfig witAnalyzer witFixer emptyBody okService
    (remediationRun defaultRemediationConfig witAnalyzer witFixer)
    (by norm_num [emptyBody]) (by norm_num [emptyBody]) rfl

/-- C4: the no-improvement stop check uses only the delta of the
current iteration: a `no_improvement` exit has the `improvement` of its
last iteration record below `minImprovementThreshold`, and a single iteration
whose improvement is below the threshold halts the loop at exactly one
completed iteration even when more iterations remain. -/
theorem claim_C4 (cfg : RemediationConfig) (analyzer : ℕ → Except String ℚ)
    (fixer : ℕ → Except String FixBatch) :
    ((remediationRun cfg analyzer fixer).stoppedReason = .no_improvement →
      ∃ r, (remediationRun cfg analyzer fixer).iterations.getLast? = some r ∧
        r.improvement < cfg.minImprovementThreshold) ∧
    (∀ (m : ℕ) (s0 s1 : ℚ) (batch : FixBatch),
      cfg.maxIterations = m + 1 →
      analyzer 0 = .ok s0 → fixer 0 = .ok batch → analyzer 1 = .ok s1 →
      ¬ cfg.targetScore ≤ clampScore s0 → ¬ cfg.targetScore ≤ clampScore s1 →
      clampScore s1 - clampScore s0 < cfg.minImprovementThreshold →
      (remediationRun cfg analyzer fixer).iterationsCompleted = 1 ∧
      (remediationRun cfg analyzer fixer).stoppedReason = .no_improvement) := by
  constructor
  · intro hni
    exact (remediationRun_spec cfg analyzer fixer).1.2.2.2.2.2.2 hni
  · intro m s0 s1 batch hm ha0 hf0 ha1 ht0 ht1 himp
    simp only [remediationRun, ha0, hm]
    rw [remediationGo]
    rw [if_neg ht0]
    simp only [List.length_nil, hf0, ha1, List.nil_append]
    rw [if_neg ht1, if_pos himp]
    simp [mkResult]

/-- Witness for C4: the low-yield scenario (60 → 61, threshold 2) with
four iterations of budget remaining. -/
theorem claim_C4_witness :
    (remediationRun defaultRemediationConfig lowYieldAnalyzer witFixer).iterationsCompleted =
      1 ∧
    (remediationRun defaultRemediationConfig lowYieldAnalyzer witFixer).stoppedReason =
      .no_improvement :=
  (claim_C4 defaultRemediationConfig lowYieldAnalyzer witFixer).2 4 60 61 ⟨5, 4⟩
    rfl rfl rfl rfl (by norm_num [clampScore, defaultRemediationConfig])
    (by norm_num [clampScore, defaultRemediationConfig])
    (by norm_num [clampScore, defaultRemediationConfig])

/-- C5: an unrecoverable Analyzer or Fix Applier error aborts the loop
immediately with `stoppedReason = error`, preserving every iteration
record completed before the failure and appending the failure to
`errors` — stated for a mid-loop Fix Applier failure, for a mid-loop
re-analysis (Analyzer) failure, and for a failure of the initial
analysis alike; in particular, on the spec scenario in which the Fix
Applier throws on iteration 2 of 5, the returned result still holds
iteration 1 complete, non-empty `errors`, and `finalScore` equal to the
`scoreAfter` of iteration 1. -/
theorem claim_C5 (cfg : RemediationConfig) (analyzer : ℕ → Except String ℚ)
    (fixer : ℕ → Except String FixBatch) :
    (∀ (fuel : ℕ) (initial current : ℚ) (done : List IterationRecord)
        (errs : List String) (e : String),
      ¬ cfg.targetScore ≤ current →
      fixer done.length = .error e →
      (remediationGo cfg analyzer fixer initial (fuel + 1) current done errs).iterations =
        done ∧
      (remediationGo cfg analyzer fixer initial (fuel + 1) current done errs).stoppedReason =
        .error ∧
      (remediationGo cfg analyzer fixer initial (fuel + 1) current done errs).errors =
        errs ++ [e] ∧
      (remediationGo cfg analyzer fixer initial (fuel + 1) current done errs).finalScore =
        current) ∧
    (∀ (fuel : ℕ) (initial current : ℚ) (done : List IterationRecord)
        (errs : List String) (batch : FixBatch) (e : String),
      ¬ cfg.targetScore ≤ current →
      fixer done.length = .ok batch →
      analyzer (done.length + 1) = .error e →
      (remediationGo cfg analyzer fixer initial (fuel + 1) current done errs).iterations =
        done ∧
      (remediationGo cfg analyzer fixer initial (fuel + 1) current done errs).stoppedReason =
        .error ∧
      (remediationGo cfg analyzer fixer initial (fuel + 1) current done errs).errors =
        errs ++ [e] ∧
      (remediationGo cfg analyzer fixer initial (fuel + 1) current done errs).finalScore =
        current) ∧
    (∀ e : String, analyzer 0 = .error e →
      (remediationRun cfg analyzer fixer).iterations = [] ∧
      (remediationRun cfg analyzer fixer).stoppedReason = .error ∧
      (remediationRun cfg analyzer fixer).errors = [e] ∧
      (remediationRun cfg analyzer fixer).finalScore =
        (remediationRun cfg analyzer fixer).initialScore) ∧
    ((remediationRun defaultRemediationConfig scenAnalyzer scenFixer).stoppedReason =
      .error ∧
     (remediationRun defaultRemediationConfig scenAnalyzer scenFixer).iterations =
      [{ iterationNumber := 1, scoreBefore := 60, scoreAfter := 70,
         improvement := 10, fixesAttempted := 5, fixesSuccessful := 5 }] ∧
     (remediationRun defaultRemediationConfig scenAnalyzer scenFixer).errors =
      ["Fix Applier failed"] ∧
     (remediationRun defaultRemediationConfig scenAnalyzer scenFixer).finalScore = 70) := by
  refine ⟨?_, ?_, ?_, ?_⟩
  · intro fuel initial current done errs e hnt hf
    rw [remediationGo, if_neg hnt]
    simp only [hf]
    exact ⟨rfl, rfl, rfl, rfl⟩
  · intro fuel initial current done errs batch e hnt hfok hae
    rw [remediationGo, if_neg hnt]
    simp only [hfok, hae]
    exact ⟨rfl, rfl, rfl, rfl⟩
  · intro e h0
    refine ⟨?_, ?_, ?_, ?_⟩ <;> simp [remediationRun, h0]
  · refine ⟨?_, ?_, ?_, ?_⟩ <;>
      norm_num [remediationRun, remediationGo, scenAnalyzer, scenFixer, clampScore,
        iterationStep, mkResult, defaultRemediationConfig, min_def, max_def]

/-- Witness for C5: a Fix Applier abort at iteration 2 with the record
of iteration 1 in hand, a re-analysis abort at iteration 1, an
initial-analysis abort, and the concrete spec scenario. -/
theorem claim_C5_witness :
    ((remediationGo defaultRemediationConfig failAnalyzer scenFixer 60 4 70
        [{ iterationNumber := 1, scoreBefore := 60, scoreAfter := 70,
           improvement := 10, fixesAttempted := 5, fixesSuccessful := 5 }]
        []).iterations =
      [{ iterationNumber := 1, scoreBefore := 60, scoreAfter := 70,
         improvement := 10, fixesAttempted := 5, fixesSuccessful := 5 }] ∧
     (remediationGo defaultRemediationConfig failAnalyzer scenFixer 60 4 70
        [{ iterationNumber := 1, scoreBefore := 60, scoreAfter := 70,
           improvement := 10, fixesAttempted := 5, fixesSuccessful := 5 }]
        []).stoppedReason = .error ∧
     (remediationGo defaultRemediationConfig failAnalyzer scenFixer 60 4 70
        [{ iterationNumber := 1, scoreBefore := 60, scoreAfter := 70,
           improvement := 10, fixesAttempted := 5, fixesSuccessful := 5 }]
        []).errors = [] ++ ["Fix Applier failed"] ∧
     (remediationGo defaultRemediationConfig failAnalyzer scenFixer 60 4 70
        [{ iterationNumber := 1, scoreBefore := 60, scoreAfter := 70,
           improvement := 10, fixesAttempted := 5, fixesSuccessful := 5 }]
        []).finalScore = 70) ∧
    ((remediationGo defaultRemediationConfig failAnalyzer scenFixer 60 5 60 []
        []).iterations = [] ∧
     (remediationGo defaultRemediationConfig failAnalyzer scenFixer 60 5 60 []
        []).stoppedReason = .error ∧
     (remediationGo defaultRemediationConfig failAnalyzer scenFixer 60 5 60 []
        []).errors = [] ++ ["Analyzer failed"] ∧
     (remediationGo defaultRemediationConfig failAnalyzer scenFixer 60 5 60 []
        []).finalScore = 60) ∧
    ((remediationRun defaultRemediationConfig errAnalyzer scenFixer).iterations = [] ∧
     (remediationRun defaultRemediationConfig errAnalyzer scenFixer).stoppedReason =
      .error ∧
     (remediationRun defaultRemediationConfig errAnalyzer scenFixer).errors =
      ["Analyzer failed"] ∧
     (remediationRun defaultRemediationConfig errAnalyzer scenFixer).finalScore =
      (remediationRun defaultRemediationConfig errAnalyzer scenFixer).initialScore) ∧
    ((remediationRun defaultRemediationConfig scenAnalyzer scenFixer).stoppedReason =
      .error ∧
     (remediationRun defaultRemediationConfig scenAnalyzer scenFixer).iterations =
      [{ iterationNumber := 1, scoreBefore := 60, scoreAfter := 70,
         improvement := 10, fixesAttempted := 5, fixesSuccessful := 5 }] ∧
     (remediationRun defaultRemediationConfig scenAnalyzer scenFixer).errors =
      ["Fix Applier failed"] ∧
     (remediationRun defaultRemediationConfig scenAnalyzer scenFixer).finalScore = 70) :=
  ⟨(claim_C5 defaultRemediationConfig failAnalyzer scenFixer).1 3 60 70
      [{ iterationNumber := 1, scoreBefore := 60, scoreAfter := 70,
         improvement := 10, fixesAttempted := 5, fixesSuccessful := 5 }]
      [] "Fix Applier failed" (by norm_num [defaultRemediationConfig]) rfl,
   (claim_C5 defaultRemediationConfig failAnalyzer scenFixer).2.1 4 60 60 [] []
      ⟨5, 5⟩ "Analyzer failed" (by norm_num [defaultRemediationConfig]) rfl rfl,
   (claim_C5 defaultRemediationConfig errAnalyzer scenFixer).2.2.1
      "Analyzer failed" rfl,
   (claim_C5 defaultRemediationConfig failAnalyzer scenFixer).2.2.2⟩

/-- C3 counterexample: a request carrying the out-of-range
`targetScore = 120` on a website the ownership lookup does not find is
answered 404 (`Website not found or access denied`), not 400: the
ownership check of `routes.ts` 1661–1665 runs before the config
validation of lines 1668–1682. -/
theorem claim_C3_counterexample :
    body120.targetScore = some 120 ∧ (100 : ℚ) < 120 ∧
    (iterativeAiFixHandler body120 false svcErr).status = 404 ∧
    (iterativeAiFixHandler body120 false svcErr).status ≠ 400 :=
  ⟨rfl, by norm_num, rfl, by decide⟩

/-- C3 (amended): for every request on a website the ownership lookup
finds, an out-of-range `targetScore` or `maxIterations` is rejected
with status 400 before the fix service is consulted: the response is
the same whatever the service would return, and the recorded service
config is `none`. -/
theorem claim_C3 (body : IterBody)
    (s₁ s₂ : IterConfig → Except String RemediationResult)
    (h : (body.targetScore.getD 85 < 50 ∨ 100 < body.targetScore.getD 85) ∨
      (body.maxIterations.getD 5 < 1 ∨ 10 < body.maxIterations.getD 5)) :
    (iterativeAiFixHandler body true s₁).status = 400 ∧
    (iterativeAiFixHandler body true s₁).calledWith = none ∧
    iterativeAiFixHandler body true s₁ = iterativeAiFixHandler body true s₂ := by
  by_cases hA : body.targetScore.getD 85 < 50 ∨ 100 < body.targetScore.getD 85
  · simp [iterativeAiFixHandler, hA]
  · have hB := h.resolve_left hA
    simp [iterativeAiFixHandler, hA, hB]

/-- Witness for the amended C3: `targetScore = 120` on a found website
is answered 400 without consulting the service. -/
theorem claim_C3_witness :
    (iterativeAiFixHandler body120 true svcErr).status = 400 ∧
    (iterativeAiFixHandler body120 true svcErr).calledWith = none ∧
    iterativeAiFixHandler body120 true svcErr =
      iterativeAiFixHandler body120 true okService :=
  claim_C3 body120 svcErr okService (Or.inl (by norm_num [body120]))

/-- C6: a run on a site with no prior SEO analysis fails with the
no-analysis error before any Analyzer or Fix Applier call (its outcome
is the same whatever the oracles would answer), and the catch block of
the route maps it to status 400 with the message `Please run SEO analysis
first before applying iterative AI fixes`. -/
theorem claim_C6 (body : IterBody) (cfg : RemediationConfig)
    (analyzer a₂ : ℕ → Except String ℚ) (fixer f₂ : ℕ → Except String FixBatch)
    (hc : validRemediationConfig cfg = true)
    (h1 : ¬(body.targetScore.getD 85 < 50 ∨ 100 < body.targetScore.getD 85))
    (h2 : ¬(body.maxIterations.getD 5 < 1 ∨ 10 < body.maxIterations.getD 5)) :
    ((iterativeAiFixHandler body true
        (fun _ => iterativelyFixUntilAcceptable false cfg analyzer fixer)).status = 400 ∧
     (iterativeAiFixHandler body true
        (fun _ => iterativelyFixUntilAcceptable false cfg analyzer fixer)).message =
      "Please run SEO analysis first before applying iterative AI fixes") ∧
    iterativelyFixUntilAcceptable false cfg analyzer fixer =
      iterativelyFixUntilAcceptable false cfg a₂ f₂ := by
  have hsvc : iterativelyFixUntilAcceptable false cfg analyzer fixer =
      .error "No SEO analysis found for this website" := by
    simp [iterativelyFixUntilAcceptable, hc]
  have hsvc2 : iterativelyFixUntilAcceptable false cfg a₂ f₂ =
      .error "No SEO analysis found for this website" := by
    simp [iterativelyFixUntilAcceptable, hc]
  have hj : jsIncludes "No SEO analysis found for this website"
      "No SEO analysis found" = true := by decide
  refine ⟨?_, hsvc.trans hsvc2.symm⟩
  simp [iterativeAiFixHandler, h1, h2, hsvc, hj]

/-- Witness for C6: the empty request body with the valid default
config and the missing-analysis precondition. -/
theorem claim_C6_witness :
    ((iterativeAiFixHandler emptyBody true
        (fun _ => iterativelyFixUntilAcceptable false defaultRemediationConfig
          witAnalyzer witFixer)).status = 400 ∧
     (iterativeAiFixHandler emptyBody true
        (fun _ => iterativelyFixUntilAcceptable false defaultRemediationConfig
          witAnalyzer witFixer)).message =
      "Please run SEO analysis first before applying iterative AI fixes") ∧
    iterativelyFixUntilAcceptable false defaultRemediationConfig witAnalyzer witFixer =
      iterativelyFixUntilAcceptable false defaultRemediationConfig scenAnalyzer scenFixer :=
  claim_C6 emptyBody defaultRemediationConfig witAnalyzer scenAnalyzer witFixer scenFixer
    (by decide) (by norm_num [emptyBody]) (by norm_num [emptyBody])

/-- C7: a request that omits the config fields invokes the service with
the documented defaults targetScore 85, maxIterations 5,
minImprovementThreshold 2, maxChangesPerIteration 20. -/
theorem claim_C7 (body : IterBody)
    (service : IterConfig → Except String RemediationResult)
    (h1 : body.targetScore = none) (h2 : body.maxIterations = none)
    (h3 : body.minImprovementThreshold = none)
    (h4 : body.maxChangesPerIteration = none) :
    (iterativeAiFixHandler body true service).calledWith =
      some { targetScore := 85, maxIterations := 5, minImprovementThreshold := 2,
             fixTypes := body.fixTypes, maxChangesPerIteration := 20,
             skipBackup := body.skipBackup.getD false } := by
  have hcfg : builtConfig body =
      { targetScore := 85, maxIterations := 5, minImprovementThreshold := 2,
        fixTypes := body.fixTypes, maxChangesPerIteration := 20,
        skipBackup := body.skipBackup.getD false } := by
    simp [builtConfig, h1, h2, h3, h4]
  have hA : ¬(body.targetScore.getD 85 < 50 ∨ 100 < body.targetScore.getD 85) := by
    rw [h1]
    norm_num
  have hB : ¬(body.maxIterations.getD 5 < 1 ∨ 10 < body.maxIterations.getD 5) := by
    rw [h2]
    norm_num
  cases hs : service (builtConfig body) with
  | ok r =>
    rw [hcfg] at hs
    simp [iterativeAiFixHandler, hA, hB, hcfg, hs]
  | error msg =>
    rw [hcfg] at hs
    simp [iterativeAiFixHandler, hA, hB, hcfg, hs]
    split
    · rfl
    · split
      · rfl
      · split
        · rfl
        · rfl

/-- Witness for C7: the empty request body. -/
theorem claim_C7_witness :
    (iterativeAiFixHandler emptyBody true okService).calledWith =
      some { targetScore := 85, maxIterations := 5, minImprovementThreshold := 2,
             fixTypes := emptyBody.fixTypes, maxChangesPerIteration := 20,
             skipBackup := emptyBody.skipBackup.getD false } :=
  claim_C7 emptyBody okService rfl rfl rfl rfl

/-- C8 counterexample: an indexing request with an invalid `type` and an
exhausted quota is answered 400, not 429: the type check of `part_000`
line 378 runs before the quota check of lines 383–386. -/
theorem claim_C8_counterexample :
    (⟨200, 200⟩ : GscQuota).used ≥ (⟨200, 200⟩ : GscQuota).limit ∧
    (indexHandler "BOGUS" ⟨200, 200⟩ true (.ok ())).status = 400 ∧
    (indexHandler "BOGUS" ⟨200, 200⟩ true (.ok ())).status ≠ 429 := by decide

/-- C8 (amended): for every indexing request with a valid `type` whose
account has `quota.used ≥ quota.limit`, the endpoint answers 429, does
not increment the quota, and does not reach the publish call (the
response is the same whatever the publish call would return). -/
theorem claim_C8 (ty : String) (quota : GscQuota) (accountFound : Bool)
    (o₁ o₂ : Except IndexApiError Unit)
    (hty : ty = "URL_UPDATED" ∨ ty = "URL_DELETED")
    (hq : quota.used ≥ quota.limit) :
    (indexHandler ty quota accountFound o₁).status = 429 ∧
    (indexHandler ty quota accountFound o₁).quotaIncremented = false ∧
    indexHandler ty quota accountFound o₁ = indexHandler ty quota accountFound o₂ := by
  have hty2 : ¬(ty ≠ "URL_UPDATED" ∧ ty ≠ "URL_DELETED") := by
    rcases hty with h | h <;> simp [h]
  simp [indexHandler, hty2, hq]

/-- Witness for the amended C8: a valid update request at an exhausted
200/200 quota. -/
theorem claim_C8_witness :
    (indexHandler "URL_UPDATED" ⟨200, 200⟩ true (.ok ())).status = 429 ∧
    (indexHandler "URL_UPDATED" ⟨200, 200⟩ true (.ok ())).quotaIncremented = false ∧
    indexHandler "URL_UPDATED" ⟨200, 200⟩ true (.ok ()) =
      indexHandler "URL_UPDATED" ⟨200, 200⟩ true (.error ⟨500⟩) :=
  claim_C8 "URL_UPDATED" ⟨200, 200⟩ true (.ok ()) (.error ⟨500⟩) (Or.inl rfl)
    (Nat.le_refl 200)

/-- C9 counterexample: a performance request with no `siteUrl` and the
valid `days = 28` is answered 400 (`Site URL is required`, `part_000`
line 582) even though the parsed days value 28 lies in [1, 90]. -/
theorem claim_C9_counterexample :
    parseIntJs ((some "28" : Option String).getD "28") = some 28 ∧
    (1 : ℤ) ≤ 28 ∧ (28 : ℤ) ≤ 90 ∧
    (perfHandler none (some "28") true (.ok ())).status = 400 := by decide

/-- C9 (amended): for every performance request that supplies a
non-empty `siteUrl` string, `days` defaults to 28 when absent, and the
endpoint answers 400 exactly when `parseInt` of the `days` value is not
a number in [1, 90]; in that case no Search Console query is made (the
response is the same whatever the query would return). -/
theorem claim_C9 (u : String) (days : Option String) (accountFound : Bool)
    (q₁ q₂ : Except String Unit) (hu : ¬ u = "") :
    parseIntJs ((none : Option String).getD "28") = some 28 ∧
    ((perfHandler (some u) days accountFound q₁).status = 400 ↔
      daysInRange days = false) ∧
    (daysInRange days = false →
      perfHandler (some u) days accountFound q₁ =
        perfHandler (some u) days accountFound q₂) := by
  refine ⟨by decide, ?_, ?_⟩
  · simp only [perfHandler]
    rw [if_neg hu]
    cases hp : parseIntJs (days.getD "28") with
    | none => simp [daysInRange, hp]
    | some n =>
      dsimp only
      by_cases hr : n < 1 ∨ 90 < n
      · rw [if_pos hr]
        have hb : (decide (1 ≤ n) && decide (n ≤ 90)) = false := by
          simp only [Bool.and_eq_false_iff, decide_eq_false_iff_not]
          omega
        simp [daysInRange, hp, hb]
      · rw [if_neg hr]
        have hd : daysInRange days = true := by
          simp only [daysInRange, hp, Bool.and_eq_true, decide_eq_true_eq]
          omega
        rw [hd]
        simp only [Bool.true_eq_false, iff_false]
        cases accountFound <;> cases q₁ <;> simp
  · intro hd
    simp only [perfHandler]
    simp only [if_neg hu]
    cases hp : parseIntJs (days.getD "28") with
    | none => rfl
    | some n =>
      dsimp only
      by_cases hr : n < 1 ∨ 90 < n
      · simp only [if_pos hr]
      · exfalso
        simp only [daysInRange, hp, Bool.and_eq_false_iff,
          decide_eq_false_iff_not] at hd
        omega

/-- Witness for the amended C9: `days = 0` on a request with a
non-empty site URL. -/
theorem claim_C9_witness :
    parseIntJs ((none : Option String).getD "28") = some 28 ∧
    ((perfHandler (some "https://example.com") (some "0") true (.ok ())).status = 400 ↔
      daysInRange (some "0") = false) ∧
    (daysInRange (some "0") = false →
      perfHandler (some "https://example.com") (some "0") true (.ok ()) =
        perfHandler (some "https://example.com") (some "0") true (.error "x")) :=
  claim_C9 "https://example.com" (some "0") true (.ok ()) (.error "x") (by decide)

/-- C10: the response statistics never divide by zero:
`averageImprovementPerIteration` is `scoreImprovement /
iterationsCompleted` only when `iterationsCompleted > 0` and 0
otherwise, and `scoreProgressionPercentage` is
`round(scoreImprovement / initialScore * 100)` only when
`initialScore > 0` and 0 otherwise; both always produce a value. -/
theorem claim_C10 (r : RemediationResult) :
    (averageImprovementPerIteration r).isSome = true ∧
    (scoreProgressionPercentage r).isSome = true ∧
    (0 < r.iterationsCompleted →
      averageImprovementPerIteration r =
        some (r.scoreImprovement / (r.iterationsCompleted : ℚ))) ∧
    (r.iterationsCompleted = 0 → averageImprovementPerIteration r = some 0) ∧
    (0 < r.initialScore →
      scoreProgressionPercentage r =
        some (jsRound (r.scoreImprovement / r.initialScore * 100))) ∧
    (r.initialScore ≤ 0 → scoreProgressionPercentage r = some 0) := by
  refine ⟨?_, ?_, ?_, ?_, ?_, ?_⟩
  · by_cases h : 0 < r.iterationsCompleted
    · have hz : ((r.iterationsCompleted : ℚ)) ≠ 0 :=
        Nat.cast_ne_zero.mpr (Nat.pos_iff_ne_zero.mp h)
      simp [averageImprovementPerIteration, jsDiv, h, hz]
    · simp [averageImprovementPerIteration, h]
  · by_cases h : 0 < r.initialScore
    · have hz : r.initialScore ≠ 0 := ne_of_gt h
      simp [scoreProgressionPercentage, jsDiv, h, hz]
    · simp [scoreProgressionPercentage, h]
  · intro h
    have hz : ((r.iterationsCompleted : ℚ)) ≠ 0 :=
      Nat.cast_ne_zero.mpr (Nat.pos_iff_ne_zero.mp h)
    simp [averageImprovementPerIteration, jsDiv, h, hz]
  · intro h
    simp [averageImprovementPerIteration, h]
  · intro h
    have hz : r.initialScore ≠ 0 := ne_of_gt h
    simp [scoreProgressionPercentage, jsDiv, h, hz]
  · intro h
    have hlt : ¬ 0 < r.initialScore := not_lt.mpr h
    simp [scoreProgressionPercentage, hlt]

/-- Witness for C10 at a zero result record. -/
theorem claim_C10_witness :
    (averageImprovementPerIteration ⟨0, 0, 0, 0, 0, .error, [], []⟩).isSome = true ∧
    (scoreProgressionPercentage ⟨0, 0, 0, 0, 0, .error, [], []⟩).isSome = true ∧
    (0 < (⟨0, 0, 0, 0, 0, .error, [], []⟩ : RemediationResult).iterationsCompleted →
      averageImprovementPerIteration ⟨0, 0, 0, 0, 0, .error, [], []⟩ =
        some ((⟨0, 0, 0, 0, 0, .error, [], []⟩ : RemediationResult).scoreImprovement /
          ((⟨0, 0, 0, 0, 0, .error, [], []⟩ : RemediationResult).iterationsCompleted : ℚ))) ∧
    ((⟨0, 0, 0, 0, 0, .error, [], []⟩ : RemediationResult).iterationsCompleted = 0 →
      averageImprovementPerIteration ⟨0, 0, 0, 0, 0, .error, [], []⟩ = some 0) ∧
    (0 < (⟨0, 0, 0, 0, 0, .error, [], []⟩ : RemediationResult).initialScore →
      scoreProgressionPercentage ⟨0, 0, 0, 0, 0, .error, [], []⟩ =
        some (jsRound ((⟨0, 0, 0, 0, 0, .error, [], []⟩ : RemediationResult).scoreImprovement /
          (⟨0, 0, 0, 0, 0, .error, [], []⟩ : RemediationResult).initialScore * 100))) ∧
    ((⟨0, 0, 0, 0, 0, .error, [], []⟩ : RemediationResult).initialScore ≤ 0 →
      scoreProgressionPercentage ⟨0, 0, 0, 0, 0, .error, [], []⟩ = some 0) :=
  claim_C10 ⟨0, 0, 0, 0, 0, .error, [], []⟩

end SeoAuto
